import Mathlib

/-!
Shallow embedding of the consensus decision engine, schema validators,
negative-check interpretation rule, metrics aggregators and batch runner
of the ai-decision-circuits repository, together with theorems settling
the frozen claims about them.

Python values flowing through the classifier pipeline are modelled by
`PyVal`; dictionaries are `PyEntries` (association lists looked up at the
first matching key, as a Python dict with unique keys behaves).  Fallible
accesses (`d[k]`, `xs[i]`, attribute access on a possibly non-dict value)
are modelled in `Except String`, mirroring the exact program points where
the Python code can raise (`KeyError`, `IndexError`, `AttributeError`).
Python `==` between pipeline values is modelled by decidable structural
equality, `x is None` by comparison with `PyVal.none`, and `.get` with a
default by total lookup.
-/

mutual

/-- A Python value as it appears in the classifier pipeline: `None`,
booleans, integers, strings, lists and string-keyed dictionaries. -/
inductive PyVal where
  | none : PyVal
  | bool (b : Bool) : PyVal
  | int (n : Int) : PyVal
  | str (s : String) : PyVal
  | list (xs : PyItems) : PyVal
  | dict (entries : PyEntries) : PyVal

/-- A Python list of values. -/
inductive PyItems where
  | nil : PyItems
  | cons (head : PyVal) (tail : PyItems) : PyItems

/-- The entries of a Python dictionary with string keys, in insertion
order. -/
inductive PyEntries where
  | nil : PyEntries
  | cons (key : String) (val : PyVal) (tail : PyEntries) : PyEntries

end

deriving instance DecidableEq for PyVal

deriving instance DecidableEq for PyItems

deriving instance DecidableEq for PyEntries

deriving instance DecidableEq for Except

/-- A Python dictionary with string keys. -/
abbrev PyDict := PyEntries

/-- Build dictionary entries from a list of key/value pairs. -/
def pd : List (String × PyVal) → PyEntries
  | [] => PyEntries.nil
  | (k, v) :: rest => PyEntries.cons k v (pd rest)

/-- First-match lookup of a key, as in a Python dict (whose keys are
unique, so first match is the only match). -/
def PyEntries.lookup : PyEntries → String → Option PyVal
  | PyEntries.nil, _ => Option.none
  | PyEntries.cons k v rest, key => if k == key then some v else rest.lookup key

/-- Python `d.get(k)`: the value at `k`, Python `None` when the key is absent. -/
def PyEntries.get (d : PyEntries) (k : String) : PyVal :=
  (d.lookup k).getD PyVal.none

/-- Python `d.get(k, dflt)`. -/
def PyEntries.getD (d : PyEntries) (k : String) (dflt : PyVal) : PyVal :=
  (d.lookup k).getD dflt

/-- Python `k in d`. -/
def PyEntries.hasKey (d : PyEntries) (k : String) : Bool :=
  (d.lookup k).isSome

/-- Python `d[k]`: raises `KeyError` when the key is absent. -/
def PyEntries.index (d : PyEntries) (k : String) : Except String PyVal :=
  match d.lookup k with
  | some v => Except.ok v
  | Option.none => Except.error "KeyError"

/-- Python `v.get(k)` where `v` may not be a dictionary (an `AttributeError` is
raised on a non-dict, as in Python). -/
def vGet (v : PyVal) (k : String) : Except String PyVal :=
  match v with
  | PyVal.dict d => Except.ok (d.get k)
  | _ => Except.error "AttributeError"

/-- Python `v.get(k, dflt)` where `v` may not be a dictionary. -/
def vGetD (v : PyVal) (k : String) (dflt : PyVal) : Except String PyVal :=
  match v with
  | PyVal.dict d => Except.ok (d.getD k dflt)
  | _ => Except.error "AttributeError"

/-- Python `v[k]` where `v` may not be a dictionary. -/
def vIndex (v : PyVal) (k : String) : Except String PyVal :=
  match v with
  | PyVal.dict d => d.index k
  | _ => Except.error "TypeError"

/-- Python truthiness of a value, used by `result.get("needs_human", False)`
consumers. -/
def pyTruthy : PyVal → Bool
  | PyVal.none => false
  | PyVal.bool b => b
  | PyVal.int n => decide (n ≠ 0)
  | PyVal.str s => decide (s ≠ "")
  | PyVal.list PyItems.nil => false
  | PyVal.list _ => true
  | PyVal.dict PyEntries.nil => false
  | PyVal.dict _ => true

/-- The global `CALL_TYPES` list defined identically in
`robust_evaluator.py`, `evaluate_calls.py` and imported by
`run_robust_evaluation.py`. -/
def CALL_TYPES : List String :=
  ["RESTORE", "ABATEMENT", "AMR (METERING)", "BILLING", "BPCS (BROKEN PIPE)",
   "BTR/O (BAD TASTE & ODOR)", "C/I - DEP (CAVE IN/DEPRESSION)", "CEMENT",
   "CHOKED DRAIN", "CLAIMS", "COMPOST"]

/-!
## Schema validators

`RobustCallClassifier.validate_call_type` (robust_evaluator.py, lines
106-117) and `SchemaValidator.invoke` (parsers/schema_validator.py, lines
19-35) share the same body; the first uses the global `CALL_TYPES`, the
second the instance's `categories`.  Python's `x in categories` compares
with `==`, which is false between a non-string value and a string, so it
is modelled by equality with `PyVal.str c`.
-/

/-- Model of `SchemaValidator` (parsers/schema_validator.py): holds the category
list given at construction. -/
structure SchemaValidator where
  categories : List String

/-- Model of `SchemaValidator.invoke`: true iff the input is a dict carrying the
`call_type` key whose value is `None` or equal to a category string.
`isinstance` and `in` never raise, so the model is total. -/
def SchemaValidator.invoke (self : SchemaValidator) (parsed_output : PyVal) : Bool :=
  match parsed_output with
  | PyVal.dict d =>
    match d.lookup "call_type" with
    | Option.none => false
    | some call_type =>
      (call_type = PyVal.none) || self.categories.any fun c => call_type = PyVal.str c
  | _ => false

/-- Model of `RobustCallClassifier.validate_call_type` (robust_evaluator.py):
identical body, with the global `CALL_TYPES` list. -/
def validate_call_type (parsed_output : PyVal) : Bool :=
  match parsed_output with
  | PyVal.dict d =>
    match d.lookup "call_type" with
    | Option.none => false
    | some call_type =>
      (call_type = PyVal.none) || CALL_TYPES.any fun c => call_type = PyVal.str c
  | _ => false

/-!
## The consensus combiners

Two implementations exist in the source: `StrategyCombiner.invoke`
(combiners/strategy_combiner.py, lines 23-93), which reads opinions with
`.get` and so is total over dict opinions, and
`RobustCallClassifier.combine_results` (robust_evaluator.py, lines
119-155), which indexes `primary_result['call_type']` /
`backup_result['call_type']` directly and returns the backup dict
verbatim when the primary failed validation and the backup validates.
Both are modelled branch for branch, preserving Python's left-to-right,
short-circuit evaluation order (which determines where an exception is
raised first).
-/

/-- The `{"call_type": None, "confidence": "low", "needs_human": True}`
verdict returned on every no-usable-label path of both combiners. -/
def nullVerdict : PyDict :=
  pd [("call_type", PyVal.none), ("confidence", PyVal.str "low"),
      ("needs_human", PyVal.bool true)]

/-- The default opinion `{"call_type": None}` substituted by
`StrategyCombiner.invoke` when a parser result is missing. -/
def defaultOpinion : PyVal := PyVal.dict (pd [("call_type", PyVal.none)])

/-- Model of `StrategyCombiner` (combiners/strategy_combiner.py): stores the
confidence thresholds given at construction.  Floats 0.8 / 0.5 / 0.3 are
modelled as rationals; they are stored and never read. -/
structure StrategyCombiner where
  confidence_thresholds : List (String × ℚ)

/-- Model of `StrategyCombiner.__init__`: `confidence_thresholds or {...}` — the
default is used when the argument is `None` or an empty (falsy) dict. -/
def StrategyCombiner.init (confidence_thresholds : Option (List (String × ℚ))) :
    StrategyCombiner :=
  match confidence_thresholds with
  | Option.none => ⟨[("high", 8/10), ("medium", 5/10), ("low", 3/10)]⟩
  | some t =>
    if t = [] then ⟨[("high", 8/10), ("medium", 5/10), ("low", 3/10)]⟩ else ⟨t⟩

/-- The input dictionary consumed by `StrategyCombiner.invoke`:
`inputs["parser_results"]` and `inputs["validation_result"]` (the
`input_text` entry is never read by `invoke`). -/
structure CombinerInputs where
  parser_results : PyDict
  validation_result : Bool
  input_text : String

/-- Lines 75-93 of strategy_combiner.py: the agreement rule and the
default rule, reached when neither earlier rule fired.  `.get` on a
non-dict opinion raises `AttributeError`, modelled by `vGet`. -/
def StrategyCombiner.invokeTail (primary_result backup_result : PyVal) :
    Except String PyDict :=
  match vGet primary_result "call_type" with
  | Except.error e => Except.error e
  | Except.ok pct =>
    match vGet backup_result "call_type" with
    | Except.error e => Except.error e
    | Except.ok bct =>
      if pct = bct ∧ pct ≠ PyVal.none then
        Except.ok (pd [("call_type", pct), ("confidence", PyVal.str "high")])
      else if pct ≠ PyVal.none then
        Except.ok (pd [("call_type", pct), ("confidence", PyVal.str "medium")])
      else Except.ok nullVerdict

/-- Model of `StrategyCombiner.invoke` (strategy_combiner.py, lines 23-93),
branch for branch.  The parser results default to `{"call_type": None}`
(primary, backup) and `"yes"` (negative) when absent. -/
def StrategyCombiner.invoke (_self : StrategyCombiner) (inputs : CombinerInputs) :
    Except String PyDict :=
  let primary_result := inputs.parser_results.getD "primary" defaultOpinion
  let backup_result := inputs.parser_results.getD "backup" defaultOpinion
  let negative_check := inputs.parser_results.getD "negative" (PyVal.str "yes")
  if inputs.validation_result = false then
    match vGet backup_result "call_type" with
    | Except.error e => Except.error e
    | Except.ok bct =>
      if bct ≠ PyVal.none then
        match vIndex backup_result "call_type" with
        | Except.error e => Except.error e
        | Except.ok b =>
          Except.ok (pd [("call_type", b), ("confidence", PyVal.str "medium")])
      else Except.ok nullVerdict
  else
    if negative_check = PyVal.str "no" then
      match vGet primary_result "call_type" with
      | Except.error e => Except.error e
      | Except.ok pct =>
        if pct ≠ PyVal.none then
          match vGet backup_result "call_type" with
          | Except.error e => Except.error e
          | Except.ok bct =>
            if bct = PyVal.none then Except.ok nullVerdict
            else if bct = pct then
              Except.ok (pd [("call_type", pct), ("confidence", PyVal.str "medium")])
            else Except.ok nullVerdict
        else StrategyCombiner.invokeTail primary_result backup_result
    else StrategyCombiner.invokeTail primary_result backup_result

/-- Lines 147-155 of robust_evaluator.py: the agreement rule and the
default rule of `combine_results`, which index `['call_type']` directly
(raising `KeyError` when the key is absent, left operand first). -/
def combine_results_tail (primary_result backup_result : PyDict) :
    Except String PyDict :=
  match primary_result.index "call_type" with
  | Except.error e => Except.error e
  | Except.ok pct =>
    match backup_result.index "call_type" with
    | Except.error e => Except.error e
    | Except.ok bct =>
      if pct = bct ∧ pct ≠ PyVal.none then
        Except.ok (pd [("call_type", pct), ("confidence", PyVal.str "high")])
      else if pct ≠ PyVal.none then
        Except.ok (pd [("call_type", pct), ("confidence", PyVal.str "medium")])
      else Except.ok nullVerdict

/-- Model of `RobustCallClassifier.combine_results` (robust_evaluator.py, lines
119-155).  When validation failed it returns the backup dict verbatim if
`validate_call_type(backup_result)` holds, else the null verdict; the
`customer_input` parameter is never read. -/
def combine_results (primary_result backup_result : PyDict)
    (negative_check : String) (validation_result : Bool)
    (_customer_input : String) : Except String PyDict :=
  if validation_result = false then
    if validate_call_type (PyVal.dict backup_result) then Except.ok backup_result
    else Except.ok nullVerdict
  else
    if negative_check = "no" then
      match primary_result.index "call_type" with
      | Except.error e => Except.error e
      | Except.ok pct =>
        if pct ≠ PyVal.none then
          match backup_result.index "call_type" with
          | Except.error e => Except.error e
          | Except.ok bct =>
            if bct = PyVal.none then Except.ok nullVerdict
            else if bct = pct then
              Except.ok (pd [("call_type", pct), ("confidence", PyVal.str "medium")])
            else Except.ok nullVerdict
        else combine_results_tail primary_result backup_result
    else combine_results_tail primary_result backup_result

/-!
## Effective verdict fields

Every consumer in the repository reads a combiner verdict with
`result["call_type"]`, `result.get("confidence", "unknown")` and
`result.get("needs_human", False)` (evaluator.py lines 160-163,
run_robust_evaluation.py lines 109-112, robust_evaluator.py lines
224-228).  The effective accessors below follow those reads: an absent
`needs_human` key reads as `False` and an absent `confidence` key as
`"unknown"`.
-/

/-- The verdict's label: the value of its `call_type` entry. -/
def effLabel (v : PyDict) : PyVal := v.get "call_type"

/-- The verdict's confidence as consumers read it. -/
def effConfidence (v : PyDict) : PyVal := v.getD "confidence" (PyVal.str "unknown")

/-- The verdict's needs-human flag as consumers read it:
`result.get("needs_human", False)` under Python truthiness. -/
def effNeedsHuman (v : PyDict) : Bool := pyTruthy (v.getD "needs_human" (PyVal.bool false))

/-!
## Negative-check interpretation rule

`RobustCallClassifier.negative_checker` (robust_evaluator.py, lines
82-104) and `NegativeChecker.invoke` (parsers/negative_checker.py, lines
36-61) apply the same rule to the raw collaborator response:
`answer = response.content.strip().lower()`, then `"yes" in answer`,
`"no" in answer`, default `"yes"`.  The response text is modelled as its
character list (`String.toList`); `strip` drops leading and trailing
whitespace, `lower` maps `Char.toLower`, and Python's substring `in` is
infix containment.
-/

/-- Python `str.strip()` on a character list. -/
def pyStripChars (s : List Char) : List Char :=
  ((s.dropWhile Char.isWhitespace).reverse.dropWhile Char.isWhitespace).reverse

/-- Python `str.lower()` on a character list. -/
def pyLowerChars (s : List Char) : List Char := s.map Char.toLower

/-- Python `needle in hay` substring containment on character lists. -/
def chContains (hay needle : List Char) : Bool :=
  hay.tails.any fun t => List.isPrefixOf needle t

/-- The interpretation rule of `RobustCallClassifier.negative_checker`
applied to the raw response content (robust_evaluator.py, lines 96-104). -/
def negative_checker_interpret (content : List Char) : String :=
  let answer := pyLowerChars (pyStripChars content)
  if chContains answer "yes".toList then "yes"
  else if chContains answer "no".toList then "no"
  else "yes"

/-- The identical interpretation rule of `NegativeChecker.invoke`
(parsers/negative_checker.py, lines 52-60). -/
def NegativeChecker.interpret (content : List Char) : String :=
  let answer := pyLowerChars (pyStripChars content)
  if chContains answer "yes".toList then "yes"
  else if chContains answer "no".toList then "no"
  else "yes"

/-!
## Metrics aggregators

`EvaluationMetrics.invoke` (metrics/evaluation_metrics.py, lines 11-83)
and `evaluate_accuracy` (run_robust_evaluation.py, lines 13-73) share the
same body; the first takes the category list from its inputs, the second
uses the global `CALL_TYPES`.  Both set `total = len(calls)` and index
`results[i]` for `i in range(total)`, so they raise `IndexError` whenever
`results` is shorter than `calls`.  Integer division results are modelled
as rationals; every quotient in the source is written
`num / den if den > 0 else 0`, modelled by `guardedRatio`.
-/

/-- Python `num / den if den > 0 else 0`, the zero-denominator guard used by
every quotient of both aggregators. -/
def guardedRatio (num den : ℚ) : ℚ := if den > 0 then num / den else 0

/-- Python `2 * (precision * recall) / (precision + recall) if (precision + recall) > 0
else 0` (evaluation_metrics.py line 38, run_robust_evaluation.py line 28). -/
def f1calc (precisionVal recallVal : ℚ) : ℚ :=
  if precisionVal + recallVal > 0 then
    2 * (precisionVal * recallVal) / (precisionVal + recallVal)
  else 0

/-- Python `xs[i]` on a Python list: `IndexError` when out of range. -/
def listIndex {α : Type} (xs : List α) (i : Nat) : Except String α :=
  match xs.get? i with
  | some x => Except.ok x
  | Option.none => Except.error "IndexError"

/-- Python `sum(1 for i in range(n) if p(i))` where evaluating `p` may raise;
indices are visited in ascending order, so the first raising index wins. -/
def countUpTo (p : Nat → Except String Bool) : Nat → Except String Nat
  | 0 => Except.ok 0
  | n + 1 =>
    match countUpTo p n with
    | Except.error e => Except.error e
    | Except.ok acc =>
      match p n with
      | Except.error e => Except.error e
      | Except.ok b => Except.ok (acc + if b then 1 else 0)

/-- Python `for i in range(n): acc = f(acc, i)` where the body may raise. -/
def foldRange {α : Type} (f : α → Nat → Except String α) (init : α) :
    Nat → Except String α
  | 0 => Except.ok init
  | n + 1 =>
    match foldRange f init n with
    | Except.error e => Except.error e
    | Except.ok acc => f acc n

/-- Python `calls[i]["type"] == results[i]["call_type"]` (the `correct` count):
both sides are evaluated, left first. -/
def itemCorrect (calls results : List PyDict) (i : Nat) : Except String Bool :=
  match listIndex calls i with
  | Except.error e => Except.error e
  | Except.ok c =>
    match c.index "type" with
    | Except.error e => Except.error e
    | Except.ok ct =>
      match listIndex results i with
      | Except.error e => Except.error e
      | Except.ok r =>
        match r.index "call_type" with
        | Except.error e => Except.error e
        | Except.ok rct => Except.ok (decide (ct = rct))

/-- Python `calls[i]["type"] == cat and results[i]["call_type"] == cat` (true
positives); `and` short-circuits, so `results[i]` is only touched when
the ground truth matches. -/
def itemTP (calls results : List PyDict) (cat : String) (i : Nat) :
    Except String Bool :=
  match listIndex calls i with
  | Except.error e => Except.error e
  | Except.ok c =>
    match c.index "type" with
    | Except.error e => Except.error e
    | Except.ok ct =>
      if ct = PyVal.str cat then
        match listIndex results i with
        | Except.error e => Except.error e
        | Except.ok r =>
          match r.index "call_type" with
          | Except.error e => Except.error e
          | Except.ok rct => Except.ok (decide (rct = PyVal.str cat))
      else Except.ok false

/-- Python `calls[i]["type"] == cat and results[i]["call_type"] != cat` (false
negatives). -/
def itemFN (calls results : List PyDict) (cat : String) (i : Nat) :
    Except String Bool :=
  match listIndex calls i with
  | Except.error e => Except.error e
  | Except.ok c =>
    match c.index "type" with
    | Except.error e => Except.error e
    | Except.ok ct =>
      if ct = PyVal.str cat then
        match listIndex results i with
        | Except.error e => Except.error e
        | Except.ok r =>
          match r.index "call_type" with
          | Except.error e => Except.error e
          | Except.ok rct => Except.ok (decide (rct ≠ PyVal.str cat))
      else Except.ok false

/-- Python `calls[i]["type"] != cat and results[i]["call_type"] == cat` (false
positives). -/
def itemFP (calls results : List PyDict) (cat : String) (i : Nat) :
    Except String Bool :=
  match listIndex calls i with
  | Except.error e => Except.error e
  | Except.ok c =>
    match c.index "type" with
    | Except.error e => Except.error e
    | Except.ok ct =>
      if ct ≠ PyVal.str cat then
        match listIndex results i with
        | Except.error e => Except.error e
        | Except.ok r =>
          match r.index "call_type" with
          | Except.error e => Except.error e
          | Except.ok rct => Except.ok (decide (rct = PyVal.str cat))
      else Except.ok false

/-- Per-category precision / recall / F1 / count. -/
structure CatMetrics where
  precision : ℚ
  recallVal : ℚ
  f1 : ℚ
  count : Nat
deriving DecidableEq, Repr

/-- One category's entry of `category_metrics` (lines 31-45 of
evaluation_metrics.py, lines 21-35 of run_robust_evaluation.py). -/
def categoryMetricsFor (calls results : List PyDict) (total : Nat) (cat : String) :
    Except String CatMetrics :=
  match countUpTo (itemTP calls results cat) total with
  | Except.error e => Except.error e
  | Except.ok tp =>
    match countUpTo (itemFN calls results cat) total with
    | Except.error e => Except.error e
    | Except.ok fn =>
      match countUpTo (itemFP calls results cat) total with
      | Except.error e => Except.error e
      | Except.ok fp =>
        let precision := guardedRatio (tp : ℚ) ((tp : ℚ) + (fp : ℚ))
        let recallVal := guardedRatio (tp : ℚ) ((tp : ℚ) + (fn : ℚ))
        Except.ok ⟨precision, recallVal, f1calc precision recallVal, tp + fn⟩

/-- The `for call_type in categories` loop building `category_metrics`,
in category order. -/
def categoryMetricsList (calls results : List PyDict) (total : Nat) :
    List String → Except String (List (String × CatMetrics))
  | [] => Except.ok []
  | c :: cs =>
    match categoryMetricsFor calls results total c with
    | Except.error e => Except.error e
    | Except.ok m =>
      match categoryMetricsList calls results total cs with
      | Except.error e => Except.error e
      | Except.ok rest => Except.ok ((c, m) :: rest)

/-- A `{"count": _, "correct": _}` cell of `confidence_metrics` during
the counting loop. -/
structure ConfCounts where
  count : Nat
  correct : Nat
deriving DecidableEq, Repr

/-- The four fixed buckets of `confidence_metrics`. -/
structure ConfTable where
  high : ConfCounts
  medium : ConfCounts
  low : ConfCounts
  unknown : ConfCounts
deriving DecidableEq, Repr

/-- The initial all-zero `confidence_metrics` table (lines 48-53). -/
def initConfTable : ConfTable := ⟨⟨0, 0⟩, ⟨0, 0⟩, ⟨0, 0⟩, ⟨0, 0⟩⟩

/-- Python `cell["count"] += 1` and conditionally `cell["correct"] += 1`. -/
def bumpCell (cell : ConfCounts) (corr : Bool) : ConfCounts :=
  ⟨cell.count + 1, cell.correct + if corr then 1 else 0⟩

/-- Update the bucket selected by the confidence value (a `PyVal`
compared with the four string keys, as Python dict membership does). -/
def bumpConfTable (t : ConfTable) (confidence : PyVal) (corr : Bool) : ConfTable :=
  if confidence = PyVal.str "high" then { t with high := bumpCell t.high corr }
  else if confidence = PyVal.str "medium" then { t with medium := bumpCell t.medium corr }
  else if confidence = PyVal.str "low" then { t with low := bumpCell t.low corr }
  else if confidence = PyVal.str "unknown" then { t with unknown := bumpCell t.unknown corr }
  else t

/-- One iteration of the confidence loop (lines 55-60):
`results[i].get("confidence", "unknown")`, membership in the table, then
`calls[i]["type"] == results[i]["call_type"]`. -/
def confLoopStep (calls results : List PyDict) (t : ConfTable) (i : Nat) :
    Except String ConfTable :=
  match listIndex results i with
  | Except.error e => Except.error e
  | Except.ok r =>
    let confidence := r.getD "confidence" (PyVal.str "unknown")
    if confidence = PyVal.str "high" ∨ confidence = PyVal.str "medium" ∨
        confidence = PyVal.str "low" ∨ confidence = PyVal.str "unknown" then
      match listIndex calls i with
      | Except.error e => Except.error e
      | Except.ok c =>
        match c.index "type" with
        | Except.error e => Except.error e
        | Except.ok ct =>
          match r.index "call_type" with
          | Except.error e => Except.error e
          | Except.ok rct => Except.ok (bumpConfTable t confidence (decide (ct = rct)))
    else Except.ok t

/-- A finished `confidence_metrics` cell, after the accuracy pass
(lines 63-67): `correct / count if count > 0 else 0`. -/
structure ConfStats where
  count : Nat
  correct : Nat
  accuracy : ℚ
deriving DecidableEq, Repr

/-- Attach the guarded accuracy to a counted cell. -/
def confStatsOf (c : ConfCounts) : ConfStats :=
  ⟨c.count, c.correct, guardedRatio (c.correct : ℚ) (c.count : ℚ)⟩

/-- The four finished buckets of `confidence_metrics`. -/
structure ConfReport where
  high : ConfStats
  medium : ConfStats
  low : ConfStats
  unknown : ConfStats
deriving DecidableEq, Repr

/-- The dictionary returned by both aggregators (lines 73-83 of
evaluation_metrics.py, lines 63-73 of run_robust_evaluation.py). -/
structure MetricsReport where
  overall_accuracy : ℚ
  correct : Nat
  total : Nat
  category_metrics : List (String × CatMetrics)
  confidence_metrics : ConfReport
  human_review_count : Nat
  human_review_percentage : ℚ
deriving DecidableEq, Repr

/-- Model of `EvaluationMetrics.invoke` (metrics/evaluation_metrics.py, lines
11-83) with `calls`, `results` and `categories` already extracted from
its inputs dictionary.  `total = len(calls)`. -/
def evaluationMetrics_invoke (calls results : List PyDict)
    (categories : List String) : Except String MetricsReport :=
  let total := calls.length
  match countUpTo (itemCorrect calls results) total with
  | Except.error e => Except.error e
  | Except.ok correct =>
    let accuracy := guardedRatio (correct : ℚ) ((total : ℚ))
    match categoryMetricsList calls results total categories with
    | Except.error e => Except.error e
    | Except.ok category_metrics =>
      match foldRange (confLoopStep calls results) initConfTable total with
      | Except.error e => Except.error e
      | Except.ok t =>
        let needs_human_count :=
          results.countP fun r => pyTruthy (r.getD "needs_human" (PyVal.bool false))
        Except.ok
          { overall_accuracy := accuracy
            correct := correct
            total := total
            category_metrics := category_metrics
            confidence_metrics :=
              ⟨confStatsOf t.high, confStatsOf t.medium, confStatsOf t.low,
               confStatsOf t.unknown⟩
            human_review_count := needs_human_count
            human_review_percentage := guardedRatio (needs_human_count : ℚ) ((total : ℚ)) }

/-- Model of `evaluate_accuracy` (run_robust_evaluation.py, lines 13-73):
the same computation with the global `CALL_TYPES` as category list. -/
def evaluate_accuracy (calls results : List PyDict) : Except String MetricsReport :=
  let total := calls.length
  match countUpTo (itemCorrect calls results) total with
  | Except.error e => Except.error e
  | Except.ok correct =>
    let accuracy := guardedRatio (correct : ℚ) ((total : ℚ))
    match categoryMetricsList calls results total CALL_TYPES with
    | Except.error e => Except.error e
    | Except.ok category_metrics =>
      match foldRange (confLoopStep calls results) initConfTable total with
      | Except.error e => Except.error e
      | Except.ok t =>
        let needs_human_count :=
          results.countP fun r => pyTruthy (r.getD "needs_human" (PyVal.bool false))
        Except.ok
          { overall_accuracy := accuracy
            correct := correct
            total := total
            category_metrics := category_metrics
            confidence_metrics :=
              ⟨confStatsOf t.high, confStatsOf t.medium, confStatsOf t.low,
               confStatsOf t.unknown⟩
            human_review_count := needs_human_count
            human_review_percentage := guardedRatio (needs_human_count : ℚ) ((total : ℚ)) }

/-!
## Batch evaluation

`RobustEvaluator.batch_evaluate` (evaluator.py, lines 130-192).  The
per-item classification `self.invoke(customer_input)` calls the external
text-generation collaborator three times, so it is modelled as an opaque
parameter `classify` returning either a combined result dictionary or a
raised exception.  The `call["customer_input"]` / `call["type"]` reads
happen before the `try`, the clean-result construction inside it; an
exception inside the `try` skips the item (`except ... continue`).  After
the loop `EvaluationMetrics().invoke` runs on the full `calls` list and
the collected `results` list, with no exception handling around it.
-/

/-- Python `d[k] = v` on a Python dictionary: replace the value at an existing
key, or append the new key at the end. -/
def PyEntries.setItem : PyEntries → String → PyVal → PyEntries
  | PyEntries.nil, k, v => PyEntries.cons k v PyEntries.nil
  | PyEntries.cons k0 v0 rest, k, v =>
    if k0 == k then PyEntries.cons k0 v rest
    else PyEntries.cons k0 v0 (rest.setItem k v)

/-- Lines 156-174 of evaluator.py: build the `clean_result` dictionary
for one successfully classified call, then attach the `debug` entry when
the combined result carries `_debug`.  `result["call_type"]` raises
`KeyError` when absent (caught by the surrounding `try`); the nested
`.get` chains raise `AttributeError` when an intermediate value is not a
dict. -/
def clean_result_of (call : PyDict) (customer_input actual_type : PyVal)
    (result : PyDict) : Except String PyDict :=
  match result.index "call_type" with
  | Except.error e => Except.error e
  | Except.ok ct =>
    let base := pd
      [("id", call.getD "id" (PyVal.str "")),
       ("customer_input", customer_input),
       ("actual_type", actual_type),
       ("call_type", ct),
       ("confidence", result.getD "confidence" (PyVal.str "unknown")),
       ("needs_human", result.getD "needs_human" (PyVal.bool false)),
       ("correct", PyVal.bool (decide (actual_type = ct)))]
    if result.hasKey "_debug" then
      let debug := result.get "_debug"
      match vGetD debug "parser_results" (PyVal.dict PyEntries.nil) with
      | Except.error e => Except.error e
      | Except.ok pr =>
        match vGetD pr "primary" (PyVal.dict PyEntries.nil) with
        | Except.error e => Except.error e
        | Except.ok prim =>
          match vGet prim "call_type" with
          | Except.error e => Except.error e
          | Except.ok primary_label =>
            match vGetD pr "backup" (PyVal.dict PyEntries.nil) with
            | Except.error e => Except.error e
            | Except.ok back =>
              match vGet back "call_type" with
              | Except.error e => Except.error e
              | Except.ok backup_label =>
                match vGetD pr "negative" (PyVal.str "") with
                | Except.error e => Except.error e
                | Except.ok negative_check =>
                  match vGetD debug "validation_result" (PyVal.bool false) with
                  | Except.error e => Except.error e
                  | Except.ok validation_result =>
                    Except.ok (base.setItem "debug" (PyVal.dict (pd
                      [("primary_result", primary_label),
                       ("backup_result", backup_label),
                       ("negative_check", negative_check),
                       ("validation_result", validation_result)])))
    else Except.ok base

/-- The `for call in calls` loop of `batch_evaluate` (lines 148-179):
`call["customer_input"]` and `call["type"]` are read before the `try`
(an error there aborts the run); a failure of the classification or of
the clean-result construction skips the item. -/
def batchLoop (classify : PyVal → Except String PyDict) :
    List PyDict → Except String (List PyDict)
  | [] => Except.ok []
  | call :: rest =>
    match call.index "customer_input" with
    | Except.error e => Except.error e
    | Except.ok customer_input =>
      match call.index "type" with
      | Except.error e => Except.error e
      | Except.ok actual_type =>
        let attempt :=
          match classify customer_input with
          | Except.error e => Except.error e
          | Except.ok result => clean_result_of call customer_input actual_type result
        match attempt with
        | Except.error _ => batchLoop classify rest
        | Except.ok clean =>
          match batchLoop classify rest with
          | Except.error e => Except.error e
          | Except.ok others => Except.ok (clean :: others)

/-- The `{"results": ..., "metrics": ...}` dictionary returned by
`batch_evaluate`. -/
structure BatchReport where
  results : List PyDict
  metrics : MetricsReport
deriving DecidableEq

/-- Model of `RobustEvaluator.batch_evaluate` (evaluator.py, lines 130-192):
optional limit, per-item loop with skip-on-failure, then unguarded
metrics aggregation over the full `calls` list and the collected
`results`. -/
def batch_evaluate (categories : List String)
    (classify : PyVal → Except String PyDict) (calls : List PyDict)
    (limit : Option Nat) : Except String BatchReport :=
  let calls := match limit with
    | some l => calls.take l
    | Option.none => calls
  match batchLoop classify calls with
  | Except.error e => Except.error e
  | Except.ok results =>
    match evaluationMetrics_invoke calls results categories with
    | Except.error e => Except.error e
    | Except.ok metrics => Except.ok ⟨results, metrics⟩

/-!
## Helper lemmas
-/

/-- A lookup that yields a non-`None` default-completed value is a real
entry: if `d.get(k)` is not `None` then `d[k]` succeeds with that value. -/
theorem index_eq_of_get_ne_none (d : PyDict) (k : String)
    (h : d.get k ≠ PyVal.none) : d.index k = Except.ok (d.get k) := by
  unfold PyEntries.get at *
  unfold PyEntries.index
  cases hl : d.lookup k with
  | none => rw [hl] at h; simp at h
  | some v => rfl

/-!
## Claim C8 — schema validation
-/

/-- C8: for every input value of any type and every category list, the
schema validator returns `true` exactly when the input is a dictionary
carrying the `call_type` key whose value is `None` or a member of the
category set; `validate_call_type` is the same predicate at the global
`CALL_TYPES`.  Both are total functions of the input, so malformed input
(non-dict, missing key, wrong-typed label) yields `false`, never an
error. -/
theorem schema_validator_true_iff :
    ∀ (cats : List String) (v : PyVal),
      (SchemaValidator.invoke ⟨cats⟩ v = true ↔
        ∃ d, v = PyVal.dict d ∧ ∃ ct, d.lookup "call_type" = some ct ∧
          (ct = PyVal.none ∨ ∃ c ∈ cats, ct = PyVal.str c))
      ∧ validate_call_type v = SchemaValidator.invoke ⟨CALL_TYPES⟩ v := by
  intro cats v
  constructor
  · cases v with
    | dict d =>
      simp only [SchemaValidator.invoke]
      cases hl : d.lookup "call_type" with
      | none => simp [hl]
      | some ct =>
        simp only [hl, Bool.or_eq_true, decide_eq_true_eq, List.any_eq_true]
        constructor
        · rintro (h | ⟨c, hc, hct⟩)
          · exact ⟨d, rfl, ct, hl, Or.inl h⟩
          · exact ⟨d, rfl, ct, hl, Or.inr ⟨c, hc, hct⟩⟩
        · rintro ⟨d2, hd2, ct2, hct2, h⟩
          cases hd2
          rw [hl] at hct2
          cases hct2
          exact h.imp id fun ⟨c, hc, hct⟩ => ⟨c, hc, hct⟩
    | none => simp [SchemaValidator.invoke]
    | bool b => simp [SchemaValidator.invoke]
    | int n => simp [SchemaValidator.invoke]
    | str s => simp [SchemaValidator.invoke]
    | list xs => simp [SchemaValidator.invoke]
  · cases v with
    | dict d =>
      simp only [SchemaValidator.invoke, validate_call_type]
    | none => rfl
    | bool b => rfl
    | int n => rfl
    | str s => rfl
    | list xs => rfl

/-!
## Claim C9 — negative-check interpretation
-/

/-- C9: for every raw collaborator response, both negative-check
implementations return one of `"yes"`/`"no"`; the answer is `"no"`
exactly when the lower-cased (stripped) response contains `"no"` but not
`"yes"`, and `"yes"` exactly when it contains `"yes"` or contains
neither — i.e. contains-"yes" has priority over contains-"no", and the
ambiguous case defaults to `"yes"`. -/
theorem negative_checker_priority :
    ∀ content : List Char,
      (negative_checker_interpret content = "yes" ∨
        negative_checker_interpret content = "no")
      ∧ (negative_checker_interpret content = "no" ↔
          chContains (pyLowerChars (pyStripChars content)) "no".toList = true ∧
          chContains (pyLowerChars (pyStripChars content)) "yes".toList = false)
      ∧ (negative_checker_interpret content = "yes" ↔
          (chContains (pyLowerChars (pyStripChars content)) "yes".toList = true ∨
           chContains (pyLowerChars (pyStripChars content)) "no".toList = false))
      ∧ NegativeChecker.interpret content = negative_checker_interpret content := by
  intro content
  simp only [negative_checker_interpret, NegativeChecker.interpret]
  cases hy : chContains (pyLowerChars (pyStripChars content)) "yes".toList <;>
    cases hn : chContains (pyLowerChars (pyStripChars content)) "no".toList <;>
      simp only [hy, hn] <;> decide

/-!
## Claim C10 — confidence thresholds have no influence
-/

/-- C10: two `StrategyCombiner`s constructed with any two
`confidence_thresholds` configurations (including none) return identical
verdicts on every input: the thresholds are stored at construction and
never read by `invoke`. -/
theorem strategy_combiner_thresholds_irrelevant :
    ∀ (t1 t2 : Option (List (String × ℚ))) (inputs : CombinerInputs),
      (StrategyCombiner.init t1).invoke inputs =
        (StrategyCombiner.init t2).invoke inputs := by
  intro t1 t2 inputs
  rfl

/-!
## Combiner theorems

`RobustEvaluator.invoke` (evaluator.py, lines 107-120) assembles the
combiner input as `{"parser_results": {"primary": ..., "backup": ...,
"negative": ...}, "validation_result": ..., "input_text": ...}`;
`mkParserResults` builds that parser-results dictionary from two opinion
dictionaries and a negative-check value.
-/

/-- The parser-results dictionary handed to `StrategyCombiner.invoke`. -/
def mkParserResults (primary backup : PyDict) (negative : PyVal) : PyDict :=
  pd [("primary", PyVal.dict primary), ("backup", PyVal.dict backup),
      ("negative", negative)]

/-- Every successful result of `StrategyCombiner.invokeTail` is the null
verdict or a two-entry verdict with a non-`None` label and no
`needs_human` key. -/
theorem invokeTail_ok_shape (p b : PyVal) (v : PyDict)
    (h : StrategyCombiner.invokeTail p b = Except.ok v) :
    v = nullVerdict ∨ ∃ x conf, x ≠ PyVal.none ∧
      v = pd [("call_type", x), ("confidence", PyVal.str conf)] := by
  unfold StrategyCombiner.invokeTail at h
  split at h
  · exact Except.noConfusion h
  case h_2 pct heq =>
    split at h
    · exact Except.noConfusion h
    case h_2 bct heq2 =>
      split at h
      case isTrue hc =>
        injection h with h
        exact Or.inr ⟨pct, "high", hc.2, h.symm⟩
      case isFalse hc =>
        split at h
        case isTrue hc2 =>
          injection h with h
          exact Or.inr ⟨pct, "medium", hc2, h.symm⟩
        case isFalse hc2 =>
          injection h with h
          exact Or.inl h.symm

/-- Every successful result of `StrategyCombiner.invoke` is the null
verdict or a two-entry verdict with a non-`None` label and no
`needs_human` key. -/
theorem strategy_invoke_ok_shape (c : StrategyCombiner) (inputs : CombinerInputs)
    (v : PyDict) (h : c.invoke inputs = Except.ok v) :
    v = nullVerdict ∨ ∃ x conf, x ≠ PyVal.none ∧
      v = pd [("call_type", x), ("confidence", PyVal.str conf)] := by
  simp only [StrategyCombiner.invoke] at h
  split at h
  · -- validation failed: backup fallback
    split at h
    · exact Except.noConfusion h
    case h_2 bct heq =>
      split at h
      case isTrue hb =>
        split at h
        · exact Except.noConfusion h
        case h_2 bv heq2 =>
          -- the indexed value equals the non-None `.get` value
          injection h with h
          refine Or.inr ⟨bv, "medium", ?_, h.symm⟩
          cases hbr : inputs.parser_results.getD "backup" defaultOpinion with
          | dict d =>
            rw [hbr] at heq heq2
            simp only [vGet] at heq
            injection heq with heq
            simp only [vIndex] at heq2
            rw [index_eq_of_get_ne_none d "call_type" (by rw [heq]; exact hb)] at heq2
            injection heq2 with heq2
            rw [← heq2, heq]
            exact hb
          | none => rw [hbr] at heq; exact Except.noConfusion heq
          | bool b2 => rw [hbr] at heq; exact Except.noConfusion heq
          | int n2 => rw [hbr] at heq; exact Except.noConfusion heq
          | str s2 => rw [hbr] at heq; exact Except.noConfusion heq
          | list xs2 => rw [hbr] at heq; exact Except.noConfusion heq
      case isFalse hb =>
        injection h with h
        exact Or.inl h.symm
  · -- validation succeeded
    split at h
    · -- negative check is "no"
      split at h
      · exact Except.noConfusion h
      case h_2 pct heq =>
        split at h
        case isTrue hp =>
          split at h
          · exact Except.noConfusion h
          case h_2 bct heq2 =>
            split at h
            case isTrue hb =>
              injection h with h
              exact Or.inl h.symm
            case isFalse hb =>
              split at h
              case isTrue hb2 =>
                injection h with h
                exact Or.inr ⟨pct, "medium", hp, h.symm⟩
              case isFalse hb2 =>
                injection h with h
                exact Or.inl h.symm
        case isFalse hp =>
          exact invokeTail_ok_shape _ _ _ h
    · exact invokeTail_ok_shape _ _ _ h

/-- Every successful result of `combine_results_tail` is the null verdict
or a two-entry verdict with a non-`None` label and no `needs_human` key. -/
theorem combine_results_tail_ok_shape (p b : PyDict) (v : PyDict)
    (h : combine_results_tail p b = Except.ok v) :
    v = nullVerdict ∨ ∃ x conf, x ≠ PyVal.none ∧
      v = pd [("call_type", x), ("confidence", PyVal.str conf)] := by
  unfold combine_results_tail at h
  split at h
  · exact Except.noConfusion h
  case h_2 pct heq =>
    split at h
    · exact Except.noConfusion h
    case h_2 bct heq2 =>
      split at h
      case isTrue hc =>
        injection h with h
        exact Or.inr ⟨pct, "high", hc.2, h.symm⟩
      case isFalse hc =>
        split at h
        case isTrue hc2 =>
          injection h with h
          exact Or.inr ⟨pct, "medium", hc2, h.symm⟩
        case isFalse hc2 =>
          injection h with h
          exact Or.inl h.symm

/-- On the two "needs-human-iff-null" shapes of verdict, the effective
flag agrees with label nullity. -/
theorem shape_needs_human_iff (v : PyDict)
    (h : v = nullVerdict ∨ ∃ x conf, x ≠ PyVal.none ∧
      v = pd [("call_type", x), ("confidence", PyVal.str conf)]) :
    (effNeedsHuman v = true ↔ effLabel v = PyVal.none) := by
  rcases h with h | ⟨x, conf, hx, h⟩
  · subst h; decide
  · subst h
    have hnh : effNeedsHuman (pd [("call_type", x), ("confidence", PyVal.str conf)]) =
        false := rfl
    have hlab : effLabel (pd [("call_type", x), ("confidence", PyVal.str conf)]) = x := rfl
    rw [hnh, hlab]
    simp [hx]

/-- When validation succeeded, or when it failed and the backup does not
validate either, every successful `combine_results` verdict is the null
verdict or a two-entry labelled verdict.  (The excluded case returns the
backup dictionary verbatim.) -/
theorem combine_results_ok_shape_restricted (p b : PyDict) (n ci : String)
    (valid : Bool) (v : PyDict)
    (h : combine_results p b n valid ci = Except.ok v)
    (hv : valid = true ∨ validate_call_type (PyVal.dict b) = false) :
    v = nullVerdict ∨ ∃ x conf, x ≠ PyVal.none ∧
      v = pd [("call_type", x), ("confidence", PyVal.str conf)] := by
  unfold combine_results at h
  cases valid with
  | false =>
    rcases hv with hv | hv
    · exact Bool.noConfusion hv
    · simp only [if_pos rfl, hv] at h
      rw [if_neg (by decide : ¬ (false = true))] at h
      injection h with h
      exact Or.inl h.symm
  | true =>
    rw [if_neg (by decide : ¬ (true = false))] at h
    split at h
    · -- negative check is "no"
      split at h
      · exact Except.noConfusion h
      case h_2 pct heq =>
        split at h
        case isTrue hp =>
          split at h
          · exact Except.noConfusion h
          case h_2 bct heq2 =>
            split at h
            case isTrue hb =>
              injection h with h
              exact Or.inl h.symm
            case isFalse hb =>
              split at h
              case isTrue hb2 =>
                injection h with h
                exact Or.inr ⟨pct, "medium", hp, h.symm⟩
              case isFalse hb2 =>
                injection h with h
                exact Or.inl h.symm
        case isFalse hp =>
          exact combine_results_tail_ok_shape _ _ _ h
    · exact combine_results_tail_ok_shape _ _ _ h

/-!
## Claim C1 — needs_human iff null label
-/

/-- C1 counterexample: `combine_results` with `validation_result = False`
and backup `{"call_type": None}` returns the backup dictionary verbatim —
a verdict whose label is null but whose (absent) `needs_human` flag reads
as `False`, so "needs_human iff label is null" fails on this combiner. -/
theorem needs_human_iff_counterexample :
    combine_results (pd [("call_type", PyVal.str "BILLING")])
        (pd [("call_type", PyVal.none)]) "yes" false "" =
      Except.ok (pd [("call_type", PyVal.none)])
    ∧ ¬ (effNeedsHuman (pd [("call_type", PyVal.none)]) = true ↔
          effLabel (pd [("call_type", PyVal.none)]) = PyVal.none) := by
  constructor
  · decide
  · decide

/-- C1 (amended): the "needs_human iff label is null" invariant holds for
every verdict of `StrategyCombiner.invoke`, and for every verdict of
`combine_results` except on the invalid-primary path that returns a
validating backup dictionary verbatim (where both the label and the flag
are whatever the backup carries). -/
theorem needs_human_iff_null_label_amended :
    (∀ (c : StrategyCombiner) (inputs : CombinerInputs) (v : PyDict),
        c.invoke inputs = Except.ok v →
        (effNeedsHuman v = true ↔ effLabel v = PyVal.none))
    ∧ (∀ (p b : PyDict) (n ci : String) (valid : Bool) (v : PyDict),
        combine_results p b n valid ci = Except.ok v →
        (valid = true ∨ validate_call_type (PyVal.dict b) = false) →
        (effNeedsHuman v = true ↔ effLabel v = PyVal.none)) := by
  constructor
  · intro c inputs v h
    exact shape_needs_human_iff v (strategy_invoke_ok_shape c inputs v h)
  · intro p b n ci valid v h hv
    exact shape_needs_human_iff v (combine_results_ok_shape_restricted p b n ci valid v h hv)

/-- Witness for C1 (amended), at the agreement scenario and at a valid
`combine_results` run. -/
theorem needs_human_iff_null_label_amended_witness :
    (effNeedsHuman (pd [("call_type", PyVal.str "BILLING"), ("confidence", PyVal.str "high")]) = true ↔
      effLabel (pd [("call_type", PyVal.str "BILLING"), ("confidence", PyVal.str "high")]) = PyVal.none)
    ∧ (effNeedsHuman nullVerdict = true ↔ effLabel nullVerdict = PyVal.none) :=
  ⟨needs_human_iff_null_label_amended.1 (StrategyCombiner.init Option.none)
      ⟨mkParserResults (pd [("call_type", PyVal.str "BILLING")])
        (pd [("call_type", PyVal.str "BILLING")]) (PyVal.str "yes"), true, ""⟩
      (pd [("call_type", PyVal.str "BILLING"), ("confidence", PyVal.str "high")])
      (by decide),
   needs_human_iff_null_label_amended.2 (pd [("call_type", PyVal.str "BILLING")])
      (pd [("call_type", PyVal.none)]) "no" "" true nullVerdict (by decide)
      (Or.inl rfl)⟩

/-!
## Claim C2 — invalid primary falls back to backup
-/

/-- With `validation_result = False`, `StrategyCombiner.invoke` returns
`{"call_type": backup.get("call_type"), "confidence": "medium"}` when the
backup label is non-null and the null verdict otherwise. -/
theorem strategy_invoke_invalid_eq (c : StrategyCombiner) (p b : PyDict)
    (neg : PyVal) (it : String) :
    c.invoke ⟨mkParserResults p b neg, false, it⟩ =
      Except.ok (if b.get "call_type" = PyVal.none then nullVerdict
        else pd [("call_type", b.get "call_type"), ("confidence", PyVal.str "medium")]) := by
  have key : c.invoke ⟨mkParserResults p b neg, false, it⟩ =
      (if b.get "call_type" ≠ PyVal.none then
        match vIndex (PyVal.dict b) "call_type" with
        | Except.error e => Except.error e
        | Except.ok bv =>
          Except.ok (pd [("call_type", bv), ("confidence", PyVal.str "medium")])
      else Except.ok nullVerdict) := rfl
  rw [key]
  by_cases hbc : b.get "call_type" = PyVal.none
  · rw [if_neg (fun hcon => hcon hbc), if_pos hbc]
  · rw [if_pos hbc, if_neg hbc]
    simp only [vIndex, index_eq_of_get_ne_none b "call_type" hbc]

/-- With `validation_result = False`, `combine_results` returns the backup
dictionary itself when it validates, else the null verdict. -/
theorem combine_results_invalid_eq (p b : PyDict) (n ci : String) :
    combine_results p b n false ci =
      Except.ok (if validate_call_type (PyVal.dict b) then b else nullVerdict) := by
  unfold combine_results
  rw [if_pos rfl]
  cases hv : validate_call_type (PyVal.dict b) <;> simp [hv]

/-- C2 counterexample: with an invalid primary and backup
`{"call_type": "BILLING"}`, `combine_results` returns the backup verbatim
— a verdict with no `"confidence"` entry at all (read as `"unknown"`), not
the `{label, medium, needs_human: false}` verdict the claim requires. -/
theorem invalid_primary_fallback_counterexample :
    combine_results (pd []) (pd [("call_type", PyVal.str "BILLING")]) "yes" false "" =
      Except.ok (pd [("call_type", PyVal.str "BILLING")])
    ∧ effConfidence (pd [("call_type", PyVal.str "BILLING")]) ≠ PyVal.str "medium" := by
  constructor
  · decide
  · decide

/-- C2 (amended): the claimed fallback behaviour holds exactly for
`StrategyCombiner.invoke` (whose medium verdict omits the `needs_human`
key, which consumers read as `False`); `combine_results` instead returns
the backup dictionary verbatim whenever it validates (even with a null
label) and the `{null, low, needs_human}` verdict only when the backup
fails validation. -/
theorem invalid_primary_fallback_amended :
    (∀ (c : StrategyCombiner) (p b : PyDict) (neg : PyVal) (it : String),
      (b.get "call_type" ≠ PyVal.none →
        c.invoke ⟨mkParserResults p b neg, false, it⟩ =
          Except.ok (pd [("call_type", b.get "call_type"),
            ("confidence", PyVal.str "medium")])
        ∧ effNeedsHuman (pd [("call_type", b.get "call_type"),
            ("confidence", PyVal.str "medium")]) = false)
      ∧ (b.get "call_type" = PyVal.none →
        c.invoke ⟨mkParserResults p b neg, false, it⟩ = Except.ok nullVerdict))
    ∧ (∀ (p b : PyDict) (n ci : String),
      combine_results p b n false ci =
        Except.ok (if validate_call_type (PyVal.dict b) then b else nullVerdict)) := by
  refine ⟨fun c p b neg it => ⟨fun hb => ⟨?_, rfl⟩, fun hb => ?_⟩,
    combine_results_invalid_eq⟩
  · rw [strategy_invoke_invalid_eq, if_neg hb]
  · rw [strategy_invoke_invalid_eq, if_pos hb]

/-- Witness for C2 (amended) at scenario D's inputs. -/
theorem invalid_primary_fallback_amended_witness :
    (StrategyCombiner.init Option.none).invoke
        ⟨mkParserResults (pd [("call_type", PyVal.str "BILLING")])
          (pd [("call_type", PyVal.str "CLAIMS")]) (PyVal.str "yes"), false, ""⟩ =
      Except.ok (pd [("call_type", PyVal.str "CLAIMS"), ("confidence", PyVal.str "medium")]) :=
  ((invalid_primary_fallback_amended.1 (StrategyCombiner.init Option.none)
      (pd [("call_type", PyVal.str "BILLING")]) (pd [("call_type", PyVal.str "CLAIMS")])
      (PyVal.str "yes") "").1 (by decide)).1

/-!
## Claim C4 — totality of the combiners
-/

/-- A successful lookup makes `d[k]` succeed with the same value. -/
theorem index_of_lookup (d : PyDict) (k : String) (v : PyVal)
    (h : d.lookup k = some v) : d.index k = Except.ok v := by
  unfold PyEntries.index
  rw [h]

/-- Helper: `StrategyCombiner.invokeTail` never fails on two dict opinions. -/
theorem invokeTail_dict_ok (p b : PyDict) :
    ∃ v, StrategyCombiner.invokeTail (PyVal.dict p) (PyVal.dict b) = Except.ok v := by
  have key : StrategyCombiner.invokeTail (PyVal.dict p) (PyVal.dict b) =
      (if p.get "call_type" = b.get "call_type" ∧ p.get "call_type" ≠ PyVal.none then
        Except.ok (pd [("call_type", p.get "call_type"), ("confidence", PyVal.str "high")])
      else if p.get "call_type" ≠ PyVal.none then
        Except.ok (pd [("call_type", p.get "call_type"), ("confidence", PyVal.str "medium")])
      else Except.ok nullVerdict) := rfl
  rw [key]
  by_cases h1 : p.get "call_type" = b.get "call_type" ∧ p.get "call_type" ≠ PyVal.none
  · exact ⟨_, by rw [if_pos h1]⟩
  · by_cases h2 : p.get "call_type" ≠ PyVal.none
    · exact ⟨_, by rw [if_neg h1, if_pos h2]⟩
    · exact ⟨_, by rw [if_neg h1, if_neg h2]⟩

/-- Helper: `combine_results_tail` never fails when both opinions carry the
`call_type` key. -/
theorem combine_results_tail_keys_ok (p b : PyDict) (pct bct : PyVal)
    (hp : p.lookup "call_type" = some pct) (hb : b.lookup "call_type" = some bct) :
    ∃ v, combine_results_tail p b = Except.ok v := by
  unfold combine_results_tail
  rw [index_of_lookup p "call_type" pct hp]
  dsimp only
  rw [index_of_lookup b "call_type" bct hb]
  dsimp only
  by_cases h1 : pct = bct ∧ pct ≠ PyVal.none
  · exact ⟨_, by rw [if_pos h1]⟩
  · by_cases h2 : pct ≠ PyVal.none
    · exact ⟨_, by rw [if_neg h1, if_pos h2]⟩
    · exact ⟨_, by rw [if_neg h1, if_neg h2]⟩

/-- C4 counterexample: `combine_results` with a primary opinion dict that
lacks the `call_type` key and `validation_result = True` raises `KeyError`
instead of returning a verdict — it is not total over opinion
dictionaries of any shape. -/
theorem combiner_total_counterexample :
    combine_results (pd []) (pd [("call_type", PyVal.none)]) "yes" true "" =
      Except.error "KeyError" := by
  decide

/-- C4 (amended): `StrategyCombiner.invoke` is total as claimed — for any
two opinion dictionaries, any negative-check value and any validity flag
it returns a verdict (and, being a pure function of its inputs, it is
deterministic).  `combine_results` returns a verdict whenever the
validity flag is false, or whenever both opinion dictionaries carry the
`call_type` key; with the flag true and a missing key it raises
`KeyError`. -/
theorem combiner_totality_amended :
    (∀ (c : StrategyCombiner) (p b : PyDict) (neg : PyVal) (valid : Bool) (it : String),
      ∃ v, c.invoke ⟨mkParserResults p b neg, valid, it⟩ = Except.ok v)
    ∧ (∀ (p b : PyDict) (n ci : String),
      (∃ v, combine_results p b n false ci = Except.ok v)
      ∧ (p.hasKey "call_type" = true → b.hasKey "call_type" = true →
          ∃ v, combine_results p b n true ci = Except.ok v)) := by
  constructor
  · intro c p b neg valid it
    cases valid with
    | false => exact ⟨_, strategy_invoke_invalid_eq c p b neg it⟩
    | true =>
      have key : c.invoke ⟨mkParserResults p b neg, true, it⟩ =
          (if neg = PyVal.str "no" then
            (if p.get "call_type" ≠ PyVal.none then
              (if b.get "call_type" = PyVal.none then Except.ok nullVerdict
               else if b.get "call_type" = p.get "call_type" then
                Except.ok (pd [("call_type", p.get "call_type"),
                  ("confidence", PyVal.str "medium")])
               else Except.ok nullVerdict)
             else StrategyCombiner.invokeTail (PyVal.dict p) (PyVal.dict b))
           else StrategyCombiner.invokeTail (PyVal.dict p) (PyVal.dict b)) := rfl
      rw [key]
      by_cases hn : neg = PyVal.str "no"
      · rw [if_pos hn]
        by_cases hp : p.get "call_type" ≠ PyVal.none
        · rw [if_pos hp]
          by_cases hb : b.get "call_type" = PyVal.none
          · exact ⟨_, by rw [if_pos hb]⟩
          · by_cases hb2 : b.get "call_type" = p.get "call_type"
            · exact ⟨_, by rw [if_neg hb, if_pos hb2]⟩
            · exact ⟨_, by rw [if_neg hb, if_neg hb2]⟩
        · rw [if_neg hp]
          exact invokeTail_dict_ok p b
      · rw [if_neg hn]
        exact invokeTail_dict_ok p b
  · intro p b n ci
    constructor
    · exact ⟨_, combine_results_invalid_eq p b n ci⟩
    · intro hp hb
      rw [PyEntries.hasKey, Option.isSome_iff_exists] at hp hb
      obtain ⟨pct, hp⟩ := hp
      obtain ⟨bct, hb⟩ := hb
      have key : combine_results p b n true ci =
          (if n = "no" then
            (match p.index "call_type" with
             | Except.error e => Except.error e
             | Except.ok pct2 =>
               if pct2 ≠ PyVal.none then
                 (match b.index "call_type" with
                  | Except.error e => Except.error e
                  | Except.ok bct2 =>
                    if bct2 = PyVal.none then Except.ok nullVerdict
                    else if bct2 = pct2 then
                      Except.ok (pd [("call_type", pct2), ("confidence", PyVal.str "medium")])
                    else Except.ok nullVerdict)
               else combine_results_tail p b)
           else combine_results_tail p b) := rfl
      rw [key]
      by_cases hn : n = "no"
      · rw [if_pos hn, index_of_lookup p "call_type" pct hp]
        dsimp only
        by_cases hpc : pct ≠ PyVal.none
        · rw [if_pos hpc, index_of_lookup b "call_type" bct hb]
          dsimp only
          by_cases hbc : bct = PyVal.none
          · exact ⟨_, by rw [if_pos hbc]⟩
          · by_cases hbc2 : bct = pct
            · exact ⟨_, by rw [if_neg hbc, if_pos hbc2]⟩
            · exact ⟨_, by rw [if_neg hbc, if_neg hbc2]⟩
        · rw [if_neg hpc]
          exact combine_results_tail_keys_ok p b pct bct hp hb
      · rw [if_neg hn]
        exact combine_results_tail_keys_ok p b pct bct hp hb

/-- Witness for C4 (amended): the key-present hypotheses discharged at a
concrete input. -/
theorem combiner_totality_amended_witness :
    ∃ v, combine_results (pd [("call_type", PyVal.str "BILLING")])
      (pd [("call_type", PyVal.str "CLAIMS")]) "yes" true "" = Except.ok v :=
  (combiner_totality_amended.2 (pd [("call_type", PyVal.str "BILLING")])
    (pd [("call_type", PyVal.str "CLAIMS")]) "yes" "").2 (by decide) (by decide)

/-!
## Claim C5 — negative check contradicts extraction
-/

/-- C5: with a valid primary, negative check `"no"` and a non-null
primary label, both combiners return the null `{None, low, needs_human}`
verdict when the backup label is null or differs from the primary label,
and the `{primary label, medium}` verdict (whose absent `needs_human` key
reads as `False`) when the backup label equals the primary label. -/
theorem negative_contradiction_rule :
    ∀ (c : StrategyCombiner) (p b : PyDict) (it ci : String) (pct bct : PyVal),
      p.lookup "call_type" = some pct → pct ≠ PyVal.none →
      b.lookup "call_type" = some bct →
      ((bct = PyVal.none ∨ bct ≠ pct →
        c.invoke ⟨mkParserResults p b (PyVal.str "no"), true, it⟩ = Except.ok nullVerdict
        ∧ combine_results p b "no" true ci = Except.ok nullVerdict)
      ∧ (bct = pct →
        c.invoke ⟨mkParserResults p b (PyVal.str "no"), true, it⟩ =
          Except.ok (pd [("call_type", pct), ("confidence", PyVal.str "medium")])
        ∧ combine_results p b "no" true ci =
          Except.ok (pd [("call_type", pct), ("confidence", PyVal.str "medium")])
        ∧ effNeedsHuman (pd [("call_type", pct), ("confidence", PyVal.str "medium")])
            = false)) := by
  intro c p b it ci pct bct hp hpn hb
  have hpg : p.get "call_type" = pct := by
    unfold PyEntries.get; rw [hp]; rfl
  have hbg : b.get "call_type" = bct := by
    unfold PyEntries.get; rw [hb]; rfl
  have keyS : c.invoke ⟨mkParserResults p b (PyVal.str "no"), true, it⟩ =
      (if p.get "call_type" ≠ PyVal.none then
        (if b.get "call_type" = PyVal.none then Except.ok nullVerdict
         else if b.get "call_type" = p.get "call_type" then
          Except.ok (pd [("call_type", p.get "call_type"),
            ("confidence", PyVal.str "medium")])
         else Except.ok nullVerdict)
       else StrategyCombiner.invokeTail (PyVal.dict p) (PyVal.dict b)) := rfl
  rw [hpg, hbg] at keyS
  rw [if_pos hpn] at keyS
  have keyC : combine_results p b "no" true ci =
      (match p.index "call_type" with
       | Except.error e => Except.error e
       | Except.ok pct2 =>
         if pct2 ≠ PyVal.none then
           (match b.index "call_type" with
            | Except.error e => Except.error e
            | Except.ok bct2 =>
              if bct2 = PyVal.none then Except.ok nullVerdict
              else if bct2 = pct2 then
                Except.ok (pd [("call_type", pct2), ("confidence", PyVal.str "medium")])
              else Except.ok nullVerdict)
         else combine_results_tail p b) := rfl
  rw [index_of_lookup p "call_type" pct hp] at keyC
  dsimp only at keyC
  rw [if_pos hpn, index_of_lookup b "call_type" bct hb] at keyC
  dsimp only at keyC
  constructor
  · intro hbc
    by_cases hbn : bct = PyVal.none
    · rw [keyS, keyC, if_pos hbn]
      exact ⟨rfl, rfl⟩
    · have hne : bct ≠ pct := by
        rcases hbc with hbc | hbc
        · exact absurd hbc hbn
        · exact hbc
      rw [keyS, keyC, if_neg hbn, if_neg hne]
      exact ⟨rfl, rfl⟩
  · intro hbc
    have hbn : bct ≠ PyVal.none := by rw [hbc]; exact hpn
    rw [keyS, keyC, if_neg hbn, if_pos hbc]
    exact ⟨rfl, rfl, rfl⟩

/-- Witness for C5 at scenario C (backup null) and at the agreeing
scenario. -/
theorem negative_contradiction_rule_witness :
    ((StrategyCombiner.init Option.none).invoke
        ⟨mkParserResults (pd [("call_type", PyVal.str "BILLING")])
          (pd [("call_type", PyVal.none)]) (PyVal.str "no"), true, ""⟩ =
      Except.ok nullVerdict)
    ∧ combine_results (pd [("call_type", PyVal.str "BILLING")])
        (pd [("call_type", PyVal.str "BILLING")]) "no" true "" =
      Except.ok (pd [("call_type", PyVal.str "BILLING"), ("confidence", PyVal.str "medium")]) :=
  ⟨((negative_contradiction_rule (StrategyCombiner.init Option.none)
      (pd [("call_type", PyVal.str "BILLING")]) (pd [("call_type", PyVal.none)]) "" ""
      (PyVal.str "BILLING") PyVal.none (by decide) (by decide) (by decide)).1
      (Or.inl rfl)).1,
   ((negative_contradiction_rule (StrategyCombiner.init Option.none)
      (pd [("call_type", PyVal.str "BILLING")]) (pd [("call_type", PyVal.str "BILLING")]) "" ""
      (PyVal.str "BILLING") (PyVal.str "BILLING") (by decide) (by decide) (by decide)).2
      rfl).2.1⟩

/-!
## Claim C6 — with an invalid primary, only the backup matters
-/

/-- C6 counterexample: two `combine_results` invocations with
`validation_result = False` and the same backup label but different extra
backup fields return different verdicts, because the validating backup
dictionary is returned verbatim. -/
theorem invalid_primary_backup_only_counterexample :
    PyEntries.get (pd [("call_type", PyVal.str "BILLING")]) "call_type" =
      PyEntries.get (pd [("call_type", PyVal.str "BILLING"), ("note", PyVal.str "x")])
        "call_type"
    ∧ combine_results (pd []) (pd [("call_type", PyVal.str "BILLING")]) "yes" false "" ≠
      combine_results (pd [])
        (pd [("call_type", PyVal.str "BILLING"), ("note", PyVal.str "x")]) "yes" false "" := by
  constructor
  · decide
  · decide

/-- C6 (amended): with `validation_result = False`,
`StrategyCombiner.invoke` depends only on the backup label as claimed —
any two invocations with equal `backup.get("call_type")` agree, whatever
the primary opinions and negative-check values; `combine_results` is
likewise independent of the primary, the negative check and the customer
input, but depends on the entire backup dictionary (returned verbatim
when it validates), not only on its label. -/
theorem invalid_primary_backup_only_amended :
    (∀ (c : StrategyCombiner) (p1 p2 b1 b2 : PyDict) (n1 n2 : PyVal)
        (it1 it2 : String),
      b1.get "call_type" = b2.get "call_type" →
      c.invoke ⟨mkParserResults p1 b1 n1, false, it1⟩ =
        c.invoke ⟨mkParserResults p2 b2 n2, false, it2⟩)
    ∧ (∀ (p1 p2 b : PyDict) (n1 n2 ci1 ci2 : String),
      combine_results p1 b n1 false ci1 = combine_results p2 b n2 false ci2) := by
  constructor
  · intro c p1 p2 b1 b2 n1 n2 it1 it2 h
    rw [strategy_invoke_invalid_eq, strategy_invoke_invalid_eq, h]
  · intro p1 p2 b n1 n2 ci1 ci2
    rw [combine_results_invalid_eq, combine_results_invalid_eq]

/-- Witness for C6 (amended): equal backup labels with different primary
opinions, negative values and extra backup fields. -/
theorem invalid_primary_backup_only_amended_witness :
    (StrategyCombiner.init Option.none).invoke
        ⟨mkParserResults (pd [("call_type", PyVal.str "RESTORE")])
          (pd [("call_type", PyVal.str "BILLING")]) (PyVal.str "yes"), false, "a"⟩ =
      (StrategyCombiner.init Option.none).invoke
        ⟨mkParserResults (pd [])
          (pd [("call_type", PyVal.str "BILLING"), ("note", PyVal.str "x")])
          (PyVal.str "no"), false, "b"⟩ :=
  invalid_primary_backup_only_amended.1 (StrategyCombiner.init Option.none)
    (pd [("call_type", PyVal.str "RESTORE")]) (pd [])
    (pd [("call_type", PyVal.str "BILLING")])
    (pd [("call_type", PyVal.str "BILLING"), ("note", PyVal.str "x")])
    (PyVal.str "yes") (PyVal.str "no") "a" "b" (by decide)

/-!
## Claim C3 — batches with failing items
-/

/-- A two-item batch whose first item's classification raises (the
collaborator call fails) and whose second succeeds. -/
def failingBatchCalls : List PyDict :=
  [pd [("id", PyVal.str "1"), ("customer_input", PyVal.str "water bill too high"),
      ("type", PyVal.str "BILLING")],
   pd [("id", PyVal.str "2"), ("customer_input", PyVal.str "basement flooded"),
      ("type", PyVal.str "CLAIMS")]]

/-- A classification oracle that raises a transport error on the first
item's text and returns a verdict for the second. -/
def failingBatchClassify : PyVal → Except String PyDict := fun v =>
  if v = PyVal.str "basement flooded" then
    Except.ok (pd [("call_type", PyVal.str "CLAIMS"), ("confidence", PyVal.str "high")])
  else Except.error "anthropic.APIConnectionError"

/-- C3: when one item of a two-item batch fails, `batch_evaluate` does
not complete with a report: the skipped item leaves `results` one entry
short while `EvaluationMetrics.invoke` iterates `range(len(calls))`, so
`results[1]` raises `IndexError` and the whole run fails — the failed
item is not excluded from the metrics denominators, which are
`len(calls)`-based. -/
theorem batch_with_failures_raises :
    batch_evaluate CALL_TYPES failingBatchClassify failingBatchCalls Option.none =
      Except.error "IndexError"
    ∧ batchLoop failingBatchClassify failingBatchCalls =
      Except.ok [pd [("id", PyVal.str "2"),
        ("customer_input", PyVal.str "basement flooded"),
        ("actual_type", PyVal.str "CLAIMS"), ("call_type", PyVal.str "CLAIMS"),
        ("confidence", PyVal.str "high"), ("needs_human", PyVal.bool false),
        ("correct", PyVal.bool true)]] := by
  constructor
  · decide
  · decide

/-!
## Claim C7 — metrics on the empty batch and zero-denominator guards
-/

/-- The all-zero per-category entry. -/
def zeroCatMetrics : CatMetrics := ⟨0, 0, 0, 0⟩

/-- The all-zero per-tier entry. -/
def zeroConfStats : ConfStats := ⟨0, 0, 0⟩

/-- The report both aggregators produce on an empty batch. -/
def zeroReport (cats : List String) : MetricsReport :=
  { overall_accuracy := 0
    correct := 0
    total := 0
    category_metrics := cats.map fun c => (c, zeroCatMetrics)
    confidence_metrics := ⟨zeroConfStats, zeroConfStats, zeroConfStats, zeroConfStats⟩
    human_review_count := 0
    human_review_percentage := 0 }

/-- On the empty batch the per-category loop yields all-zero metrics for
every category. -/
theorem categoryMetricsList_empty (cats : List String) :
    categoryMetricsList [] [] 0 cats =
      Except.ok (cats.map fun c => (c, zeroCatMetrics)) := by
  induction cats with
  | nil => rfl
  | cons c cs ih =>
    have hfor : categoryMetricsFor [] [] 0 c = Except.ok zeroCatMetrics := by
      unfold categoryMetricsFor
      norm_num [countUpTo, guardedRatio, f1calc, zeroCatMetrics]
    simp [categoryMetricsList, hfor, ih]

/-- C7: both aggregators return the all-zero report on the empty batch —
zero overall accuracy, zero precision/recall/F1/count for every category,
zero count and accuracy for every confidence tier, and zero human-review
count and percentage — and every quotient they compute (`guardedRatio`
for accuracy, precision, recall, tier accuracy and human-review
percentage; `f1calc` for F1) returns 0 on a zero denominator instead of
raising or producing a non-number. -/
theorem metrics_empty_batch_all_zero :
    (∀ cats : List String,
      evaluationMetrics_invoke [] [] cats = Except.ok (zeroReport cats))
    ∧ evaluate_accuracy [] [] = Except.ok (zeroReport CALL_TYPES)
    ∧ (∀ x : ℚ, guardedRatio x 0 = 0)
    ∧ (∀ precisionVal recallVal : ℚ, precisionVal + recallVal = 0 →
        f1calc precisionVal recallVal = 0) := by
  refine ⟨?_, ?_, ?_, ?_⟩
  · intro cats
    unfold evaluationMetrics_invoke
    rw [show ([] : List PyDict).length = 0 from rfl]
    dsimp only
    rw [show countUpTo (itemCorrect [] []) 0 = Except.ok 0 from rfl]
    dsimp only
    rw [categoryMetricsList_empty cats]
    dsimp only
    rw [show foldRange (confLoopStep [] []) initConfTable 0 =
      Except.ok initConfTable from rfl]
    dsimp only
    norm_num [zeroReport, zeroConfStats, guardedRatio, confStatsOf, initConfTable]
  · unfold evaluate_accuracy
    rw [show ([] : List PyDict).length = 0 from rfl]
    dsimp only
    rw [show countUpTo (itemCorrect [] []) 0 = Except.ok 0 from rfl]
    dsimp only
    rw [categoryMetricsList_empty CALL_TYPES]
    dsimp only
    rw [show foldRange (confLoopStep [] []) initConfTable 0 =
      Except.ok initConfTable from rfl]
    dsimp only
    norm_num [zeroReport, zeroConfStats, guardedRatio, confStatsOf, initConfTable]
  · intro x
    simp [guardedRatio]
  · intro precisionVal recallVal h
    unfold f1calc
    rw [h]
    simp

/-- Witness for C7: the zero-denominator F1 guard discharged at the
origin. -/
theorem metrics_empty_batch_all_zero_witness : f1calc 0 0 = 0 :=
  metrics_empty_batch_all_zero.2.2.2 0 0 (by norm_num)
